import Mathlib

/-
  Verification development for the RobotProcess lifecycle core
  (src/include/robot_process.h).

  Only the header (declarations, state macros, types and doc comments) of
  the repository is available under src/; the member-function bodies live in
  robot_process.cpp, which is not part of src/. Following the header's
  declarations, the operation bodies below are modelled from the spec
  (spec.md sections 3, 4.1, 4.2 and 7), as marked on each definition.
-/

/-- The process state type. In the source, `RobotProcess::State` is
`uint8_t` (robot_process.h line 74): an unsigned 8-bit machine integer.
We embed it as `Nat`; every value actually stored is one of the small macro
constants below, all `< 256`. -/
abbrev State := Nat

/-- `#define STATE_CREATED 1` (robot_process.h line 49). -/
def STATE_CREATED : State := 1

/-- `#define STATE_READY_TO_START 2` (robot_process.h line 50). -/
def STATE_READY_TO_START : State := 2

/-- `#define STATE_RUNNING 3` (robot_process.h line 51). -/
def STATE_RUNNING : State := 3

/-- `#define STATE_PAUSED 4` (robot_process.h line 52). -/
def STATE_PAUSED : State := 4

/-- `#define STATE_STARTED 7` (robot_process.h line 54); not a process
lifecycle state (the spec's data model has exactly four states). -/
def STATE_STARTED : State := 7

/-- `#define STATE_NOT_STARTED 8` (robot_process.h line 55). -/
def STATE_NOT_STARTED : State := 8

/-- Observable record of which user hook the core invoked: the pure virtual
methods `ownSetUp`, `ownStart`, `ownStop`, `ownRun` of robot_process.h
lines 152-173 (the spec's `onSetup`/`onStart`/`onStop`/`onTick`). -/
inductive HookEvent where
  | onSetup
  | onStart
  | onStop
  | onTick
  deriving DecidableEq, Repr

/-- The user-supplied hook set (spec section 2, `HookSet`): four opaque
operations supplied by the derived class. Each may succeed or raise an
error of type `ε` (spec section 7, `HookFailure`). -/
structure Hooks (ε : Type) where
  ownSetUp : Except ε Unit
  ownStart : Except ε Unit
  ownStop : Except ε Unit
  ownRun : Except ε Unit

/-- Outcome reported by a lifecycle operation to its caller, per spec
section 7: success, the warning reported by an already-running `start()`,
`InvalidLifecycleCall`, `InvalidStateTransition`, or a propagated hook
error. -/
inductive LifecycleResult (ε : Type) where
  | ok
  | warnAlreadyRunning
  | invalidLifecycleCall
  | invalidStateTransition
  | hookFailure (e : ε)
  deriving DecidableEq, Repr

/-- The state of one `RobotProcess` object (robot_process.h lines 70-174):
`current_state` (line 84), `drone_id` (line 85), `hostname` (line 86).
`run_context_enabled` models whether the `ownRun` tick-execution context
has been triggered by the first `start()` (header line 99: "The first time
is called this function calls to ownRun()"; spec section 4.1: "the tick
loop becomes eligible"). `state_notifications` records the alive messages
sent to the PerformanceMonitor by `setState` (header line 121). -/
structure RobotProcess where
  current_state : State
  drone_id : String
  hostname : String
  run_context_enabled : Bool
  state_notifications : List State
  deriving DecidableEq, Repr

/-- Result of one lifecycle operation: the updated process, the list of
hook invocations it performed (in order), and the reported outcome. -/
structure StepOut (ε : Type) where
  proc : RobotProcess
  hooks_run : List HookEvent
  result : LifecycleResult ε
  deriving DecidableEq, Repr

/-- Modelled from the spec: the `RobotProcess()` constructor body is in the
missing robot_process.cpp. Spec section 3: "LifecycleState is created once
at process startup (`Created`)"; `processId` (`drone_id`) and `hostName`
are assigned at construction. -/
def RobotProcess.init (drone_id hostname : String) : RobotProcess :=
  { current_state := STATE_CREATED
    drone_id := drone_id
    hostname := hostname
    run_context_enabled := false
    state_notifications := [] }

/-- `getState()` (robot_process.h line 117). Modelled from the spec: the
body is in the missing robot_process.cpp; spec section 4.1: "returns
current `state` as an immutable snapshot". -/
def getState (p : RobotProcess) : State :=
  p.current_state

/-- `setState(new_state)` (robot_process.h line 125). Modelled from the
spec: the body is in the missing robot_process.cpp. Header line 120: "The
function accepts one of the already defined states to modify the
'curent_state' attribute. It also sends and alive message to the
PerformanceMonitor"; spec section 3 invariant: "`state` is always one of
the four defined values; no other integer/tag is valid", so a tag outside
the four lifecycle states is ignored. -/
def setState (p : RobotProcess) (new_state : State) : RobotProcess :=
  if new_state = STATE_CREATED ∨ new_state = STATE_READY_TO_START ∨
      new_state = STATE_RUNNING ∨ new_state = STATE_PAUSED then
    { p with
      current_state := new_state
      state_notifications := p.state_notifications ++ [new_state] }
  else
    p

/-- `setUp()` (robot_process.h line 96: "This function calls to
ownSetUp()."). Modelled from the spec: the body is in the missing
robot_process.cpp; spec section 4.1: "allowed once, only from `Created`.
Invokes `onSetup` hook, then transitions to `ReadyToStart`. Calling it more
than once is a programming error (fails with `InvalidLifecycleCall`)";
spec section 7: on hook failure "the transition must not complete (state
remains at its pre-call value) and the error is propagated". -/
def setUp {ε : Type} (hooks : Hooks ε) (p : RobotProcess) : StepOut ε :=
  if p.current_state = STATE_CREATED then
    match hooks.ownSetUp with
    | .ok _ => ⟨setState p STATE_READY_TO_START, [.onSetup], .ok⟩
    | .error e => ⟨p, [.onSetup], .hookFailure e⟩
  else
    ⟨p, [], .invalidLifecycleCall⟩

/-- `start()` (robot_process.h lines 98-100: "This function calls to
ownStart(). The first time is called this function calls to ownRun()").
Modelled from the spec: the body is in the missing robot_process.cpp; spec
section 4.1: "allowed from `ReadyToStart` or `Paused`. On first-ever
invocation additionally triggers `onRun`-style continuous execution context
(the tick loop becomes eligible); transitions to `Running`; invokes
`onStart` hook before flipping state. Idempotent no-op with a reported
warning if already `Running`"; spec section 7: a failing hook leaves the
state at its pre-call value and the error is propagated. -/
def start {ε : Type} (hooks : Hooks ε) (p : RobotProcess) : StepOut ε :=
  if p.current_state = STATE_RUNNING then
    ⟨p, [], .warnAlreadyRunning⟩
  else if p.current_state = STATE_READY_TO_START ∨ p.current_state = STATE_PAUSED then
    match hooks.ownStart with
    | .ok _ => ⟨{ setState p STATE_RUNNING with run_context_enabled := true }, [.onStart], .ok⟩
    | .error e => ⟨p, [.onStart], .hookFailure e⟩
  else
    ⟨p, [], .invalidLifecycleCall⟩

/-- `stop()` (robot_process.h line 103: "This function calls to
ownStop()."). Modelled from the spec: the body is in the missing
robot_process.cpp; spec section 4.1: "allowed from `Running` or `Paused`.
Invokes `onStop` hook, transitions to `ReadyToStart`"; spec section 7: a
failing hook leaves the state at its pre-call value and the error is
propagated. -/
def stop {ε : Type} (hooks : Hooks ε) (p : RobotProcess) : StepOut ε :=
  if p.current_state = STATE_RUNNING ∨ p.current_state = STATE_PAUSED then
    match hooks.ownStop with
    | .ok _ => ⟨setState p STATE_READY_TO_START, [.onStop], .ok⟩
    | .error e => ⟨p, [.onStop], .hookFailure e⟩
  else
    ⟨p, [], .invalidLifecycleCall⟩

/-- `run()` (robot_process.h lines 105-110: "This function calls to
ownRun() when the process is Running."). Modelled from the spec: the body
is in the missing robot_process.cpp; spec section 4.1 `tick()`: "only calls
`onTick` when `state == Running`; otherwise a cheap no-op". -/
def run {ε : Type} (hooks : Hooks ε) (p : RobotProcess) : StepOut ε :=
  if p.current_state = STATE_RUNNING then
    match hooks.ownRun with
    | .ok _ => ⟨p, [.onTick], .ok⟩
    | .error e => ⟨p, [.onTick], .hookFailure e⟩
  else
    ⟨p, [], .ok⟩

/-- `startSrvCall` (robot_process.h lines 137-144: "This ROS service set
RobotProcess in RUNNING state and calls function start. Currently, this
service should only be called if the process is ready to start").
Modelled from the spec: the body is in the missing robot_process.cpp; spec
section 4.2 `RequestStart`: "valid only when `state == ReadyToStart`; calls
`ProcessCore.start()`, then `ProcessCore.setState(Running)`. Returns
success/failure"; an out-of-state request is rejected with
`InvalidStateTransition`; hook errors are propagated to the caller. -/
def startSrvCall {ε : Type} (hooks : Hooks ε) (p : RobotProcess) : StepOut ε :=
  if p.current_state = STATE_READY_TO_START then
    let o := start hooks p
    match o.result with
    | .ok => ⟨setState o.proc STATE_RUNNING, o.hooks_run, .ok⟩
    | r => ⟨o.proc, o.hooks_run, r⟩
  else
    ⟨p, [], .invalidStateTransition⟩

/-- `stopSrvCall` (robot_process.h lines 128-135: "This ROS service set
RobotProcess in READY_TO_START state and calls function stop. Currently,
this service should only be called if the process is running"). Modelled
from the spec: the body is in the missing robot_process.cpp; spec section
4.2 `RequestStop`: "valid only when `state == Running`; calls
`ProcessCore.stop()`, then `ProcessCore.setState(ReadyToStart)`. Returns
success/failure"; an out-of-state request is rejected with
`InvalidStateTransition`; hook errors are propagated to the caller. -/
def stopSrvCall {ε : Type} (hooks : Hooks ε) (p : RobotProcess) : StepOut ε :=
  if p.current_state = STATE_RUNNING then
    let o := stop hooks p
    match o.result with
    | .ok => ⟨setState o.proc STATE_READY_TO_START, o.hooks_run, .ok⟩
    | r => ⟨o.proc, o.hooks_run, r⟩
  else
    ⟨p, [], .invalidStateTransition⟩

/-- A process state is one of the four lifecycle states of the data model
(spec section 3; robot_process.h lines 49-52). -/
def validState (s : State) : Prop :=
  s = STATE_CREATED ∨ s = STATE_READY_TO_START ∨ s = STATE_RUNNING ∨ s = STATE_PAUSED

instance (s : State) : Decidable (validState s) := by
  unfold validState; infer_instance

/-- The states of a `RobotProcess` reachable from construction by any
sequence of public operations (any hook behaviour, any `setState`
argument). -/
inductive Reachable : RobotProcess → Prop where
  | init (d h : String) : Reachable (RobotProcess.init d h)
  | setUpStep {ε : Type} (hooks : Hooks ε) {p : RobotProcess} :
      Reachable p → Reachable (setUp hooks p).proc
  | startStep {ε : Type} (hooks : Hooks ε) {p : RobotProcess} :
      Reachable p → Reachable (start hooks p).proc
  | stopStep {ε : Type} (hooks : Hooks ε) {p : RobotProcess} :
      Reachable p → Reachable (stop hooks p).proc
  | runStep {ε : Type} (hooks : Hooks ε) {p : RobotProcess} :
      Reachable p → Reachable (run hooks p).proc
  | setStateStep (s : State) {p : RobotProcess} :
      Reachable p → Reachable (setState p s)
  | startSrvStep {ε : Type} (hooks : Hooks ε) {p : RobotProcess} :
      Reachable p → Reachable (startSrvCall hooks p).proc
  | stopSrvStep {ε : Type} (hooks : Hooks ε) {p : RobotProcess} :
      Reachable p → Reachable (stopSrvCall hooks p).proc

/-- One start/stop cycle of the valid call order in spec section 8. -/
def cycle {ε : Type} (hooks : Hooks ε) (p : RobotProcess) : RobotProcess :=
  (stop hooks (start hooks p).proc).proc

/-- The process after `n` start/stop cycles. -/
def afterCycles {ε : Type} (hooks : Hooks ε) (p : RobotProcess) : Nat → RobotProcess
  | 0 => p
  | n + 1 => cycle hooks (afterCycles hooks p n)

/-- The hook set whose four hooks all succeed, used to instantiate
universally quantified statements at a concrete input. -/
def okHooks : Hooks Unit :=
  ⟨.ok (), .ok (), .ok (), .ok ()⟩

/-- Truncation of a signed integer to `uint8_t`
(`RobotProcess::State = uint8_t`, robot_process.h line 74): the value a
caller observes when an int is stored in or returned as a `State`. -/
def uint8OfInt (i : Int) : Nat :=
  (i % 256).toNat

/-- Concrete freshly constructed process, for instantiating theorems. -/
def procCreated : RobotProcess := RobotProcess.init "drone1" "hostA"

/-- Concrete process in the `ReadyToStart` state. -/
def procReady : RobotProcess := { procCreated with current_state := STATE_READY_TO_START }

/-- Concrete process in the `Running` state. -/
def procRunning : RobotProcess := { procCreated with current_state := STATE_RUNNING }

/-- Concrete process in the `Paused` state. -/
def procPaused : RobotProcess := { procCreated with current_state := STATE_PAUSED }

/-- A hook set whose four hooks all raise error `7`. -/
def errHooks : Hooks Nat := ⟨.error 7, .error 7, .error 7, .error 7⟩

theorem setState_valid (p : RobotProcess) (s : State) (hs : validState s) :
    (setState p s).current_state = s := by
  unfold validState at hs
  unfold setState
  rw [if_pos hs]

theorem setState_cases (p : RobotProcess) (s : State) :
    (setState p s).current_state = p.current_state ∨
    validState (setState p s).current_state := by
  unfold setState validState
  by_cases h : s = STATE_CREATED ∨ s = STATE_READY_TO_START ∨
      s = STATE_RUNNING ∨ s = STATE_PAUSED
  · rw [if_pos h]; right; exact h
  · rw [if_neg h]; left; rfl

/-- Claim C2: invoking the remote start operation (`startSrvCall` /
`RequestStart`) while `current_state == Running` returns the
`InvalidStateTransition` failure, leaves the process (in particular
`current_state`) unchanged, and never runs the `onStart` hook. -/
theorem startSrvCall_running_rejected {ε : Type} (hooks : Hooks ε) (p : RobotProcess)
    (h : p.current_state = STATE_RUNNING) :
    (startSrvCall hooks p).result = .invalidStateTransition ∧
    (startSrvCall hooks p).proc = p ∧
    HookEvent.onStart ∉ (startSrvCall hooks p).hooks_run := by
  have hne : ¬ p.current_state = STATE_READY_TO_START := by
    rw [h]; decide
  unfold startSrvCall
  rw [if_neg hne]
  exact ⟨rfl, rfl, by simp⟩

/-- Witness for C2 at a concrete running process. -/
theorem startSrvCall_running_rejected_witness :
    procRunning.current_state = STATE_RUNNING ∧
    ((startSrvCall okHooks procRunning).result = .invalidStateTransition ∧
     (startSrvCall okHooks procRunning).proc = procRunning ∧
     HookEvent.onStart ∉ (startSrvCall okHooks procRunning).hooks_run) :=
  ⟨rfl, startSrvCall_running_rejected okHooks procRunning rfl⟩

/-- Claim C3: invoking the remote stop operation (`stopSrvCall` /
`RequestStop`) while `current_state == ReadyToStart` returns the
`InvalidStateTransition` failure and leaves the process (in particular
`current_state`) unchanged. -/
theorem stopSrvCall_ready_rejected {ε : Type} (hooks : Hooks ε) (p : RobotProcess)
    (h : p.current_state = STATE_READY_TO_START) :
    (stopSrvCall hooks p).result = .invalidStateTransition ∧
    (stopSrvCall hooks p).proc = p := by
  have hne : ¬ p.current_state = STATE_RUNNING := by
    rw [h]; decide
  unfold stopSrvCall
  rw [if_neg hne]
  exact ⟨rfl, rfl⟩

/-- Witness for C3 at a concrete ready-to-start process. -/
theorem stopSrvCall_ready_rejected_witness :
    procReady.current_state = STATE_READY_TO_START ∧
    ((stopSrvCall okHooks procReady).result = .invalidStateTransition ∧
     (stopSrvCall okHooks procReady).proc = procReady) :=
  ⟨rfl, stopSrvCall_ready_rejected okHooks procReady rfl⟩

/-- Claim C6: `setUp()` succeeds only from `Created` — there it invokes
the `ownSetUp` hook and sets `current_state` to `ReadyToStart` — and any
out-of-order (in particular any second) invocation fails with
`InvalidLifecycleCall`, runs no hook and leaves the process unchanged. -/
theorem setUp_spec {ε : Type} (hooks : Hooks ε) (p : RobotProcess) :
    (p.current_state = STATE_CREATED → hooks.ownSetUp = .ok () →
      (setUp hooks p).hooks_run = [HookEvent.onSetup] ∧
      (setUp hooks p).proc.current_state = STATE_READY_TO_START ∧
      (setUp hooks p).result = .ok) ∧
    (p.current_state ≠ STATE_CREATED →
      (setUp hooks p).result = .invalidLifecycleCall ∧
      (setUp hooks p).proc = p ∧
      (setUp hooks p).hooks_run = []) := by
  constructor
  · intro h hok
    unfold setUp
    rw [if_pos h, hok]
    exact ⟨rfl, setState_valid p STATE_READY_TO_START (by decide), rfl⟩
  · intro h
    unfold setUp
    rw [if_neg h]
    exact ⟨rfl, rfl, rfl⟩

/-- Witness for C6: success from `Created`, rejection from `Running`. -/
theorem setUp_spec_witness :
    (procCreated.current_state = STATE_CREATED ∧ okHooks.ownSetUp = .ok () ∧
      (setUp okHooks procCreated).hooks_run = [HookEvent.onSetup] ∧
      (setUp okHooks procCreated).proc.current_state = STATE_READY_TO_START ∧
      (setUp okHooks procCreated).result = .ok) ∧
    (procRunning.current_state ≠ STATE_CREATED ∧
      (setUp okHooks procRunning).result = .invalidLifecycleCall ∧
      (setUp okHooks procRunning).proc = procRunning ∧
      (setUp okHooks procRunning).hooks_run = []) :=
  ⟨⟨rfl, rfl, (setUp_spec okHooks procCreated).1 rfl rfl⟩,
   ⟨by decide, (setUp_spec okHooks procRunning).2 (by decide)⟩⟩

/-- Claim C7: the periodic entry point `run()` invokes the `ownRun`
(`onTick`) hook if and only if `current_state == Running`; in every other
state it is a no-op that changes no field of the process. -/
theorem run_tick_iff {ε : Type} (hooks : Hooks ε) (p : RobotProcess) :
    (HookEvent.onTick ∈ (run hooks p).hooks_run ↔ p.current_state = STATE_RUNNING) ∧
    (p.current_state ≠ STATE_RUNNING →
      run hooks p = ⟨p, [], LifecycleResult.ok⟩) := by
  constructor
  · constructor
    · intro hmem
      by_contra h
      unfold run at hmem
      rw [if_neg h] at hmem
      simp at hmem
    · intro h
      unfold run
      rw [if_pos h]
      cases hr : hooks.ownRun <;> simp
  · intro h
    unfold run
    rw [if_neg h]

/-- Witness for C7: tick runs the hook from `Running`, is a no-op from
`Created`. -/
theorem run_tick_iff_witness :
    (HookEvent.onTick ∈ (run okHooks procRunning).hooks_run ↔
      procRunning.current_state = STATE_RUNNING) ∧
    (procCreated.current_state ≠ STATE_RUNNING ∧
      run okHooks procCreated = ⟨procCreated, [], LifecycleResult.ok⟩) :=
  ⟨(run_tick_iff okHooks procRunning).1,
   by decide,
   (run_tick_iff okHooks procCreated).2 (by decide)⟩

/-- Claim C5: `start()` from `Running` is an idempotent no-op apart from
the reported warning — no `onStart` hook, no state change; from
`ReadyToStart` or `Paused` it runs the `onStart` hook, sets
`current_state` to `Running` and enables the `ownRun` tick-execution
context; the hook runs before the state flip: if the hook fails the
process is left exactly as before the call. -/
theorem start_spec {ε : Type} (hooks : Hooks ε) (p : RobotProcess) :
    (p.current_state = STATE_RUNNING →
      start hooks p = ⟨p, [], LifecycleResult.warnAlreadyRunning⟩) ∧
    ((p.current_state = STATE_READY_TO_START ∨ p.current_state = STATE_PAUSED) →
      (hooks.ownStart = .ok () →
        (start hooks p).hooks_run = [HookEvent.onStart] ∧
        (start hooks p).proc.current_state = STATE_RUNNING ∧
        (start hooks p).proc.run_context_enabled = true) ∧
      (∀ e, hooks.ownStart = .error e → (start hooks p).proc = p)) := by
  constructor
  · intro h
    unfold start
    rw [if_pos h]
  · intro hv
    have hne : ¬ p.current_state = STATE_RUNNING := by
      rcases hv with h | h <;> rw [h] <;> decide
    constructor
    · intro hok
      unfold start
      rw [if_neg hne, if_pos hv, hok]
      exact ⟨rfl, setState_valid p STATE_RUNNING (by decide), rfl⟩
    · intro e he
      unfold start
      rw [if_neg hne, if_pos hv, he]

/-- Witness for C5: warning no-op from `Running`; hook plus transition
from `ReadyToStart`; failed hook from `Paused` leaves the process as
it was. -/
theorem start_spec_witness :
    (procRunning.current_state = STATE_RUNNING ∧
      start okHooks procRunning = ⟨procRunning, [], LifecycleResult.warnAlreadyRunning⟩) ∧
    ((procReady.current_state = STATE_READY_TO_START ∨
        procReady.current_state = STATE_PAUSED) ∧
      okHooks.ownStart = .ok () ∧
      (start okHooks procReady).hooks_run = [HookEvent.onStart] ∧
      (start okHooks procReady).proc.current_state = STATE_RUNNING ∧
      (start okHooks procReady).proc.run_context_enabled = true) ∧
    ((procPaused.current_state = STATE_READY_TO_START ∨
        procPaused.current_state = STATE_PAUSED) ∧
      errHooks.ownStart = .error 7 ∧
      (start errHooks procPaused).proc = procPaused) :=
  ⟨⟨rfl, (start_spec okHooks procRunning).1 rfl⟩,
   ⟨Or.inl rfl, rfl, ((start_spec okHooks procReady).2 (Or.inl rfl)).1 rfl⟩,
   ⟨Or.inr rfl, rfl, ((start_spec errHooks procPaused).2 (Or.inr rfl)).2 7 rfl⟩⟩

/-- Claim C8: for each lifecycle transition operation invoked in a state
that permits it, a hook error aborts the transition — the process (and so
`current_state`) equals its pre-call value — and the error is propagated
to the caller as `hookFailure`. -/
theorem hook_failure_aborts {ε : Type} (hooks : Hooks ε) (p : RobotProcess) (e : ε) :
    (p.current_state = STATE_CREATED → hooks.ownSetUp = .error e →
      (setUp hooks p).proc = p ∧ (setUp hooks p).result = .hookFailure e) ∧
    ((p.current_state = STATE_READY_TO_START ∨ p.current_state = STATE_PAUSED) →
      hooks.ownStart = .error e →
      (start hooks p).proc = p ∧ (start hooks p).result = .hookFailure e) ∧
    ((p.current_state = STATE_RUNNING ∨ p.current_state = STATE_PAUSED) →
      hooks.ownStop = .error e →
      (stop hooks p).proc = p ∧ (stop hooks p).result = .hookFailure e) := by
  refine ⟨?_, ?_, ?_⟩
  · intro h he
    unfold setUp
    rw [if_pos h, he]
    exact ⟨rfl, rfl⟩
  · intro hv he
    have hne : ¬ p.current_state = STATE_RUNNING := by
      rcases hv with h | h <;> rw [h] <;> decide
    unfold start
    rw [if_neg hne, if_pos hv, he]
    exact ⟨rfl, rfl⟩
  · intro hv he
    unfold stop
    rw [if_pos hv, he]
    exact ⟨rfl, rfl⟩

/-- Witness for C8 at the three transitions with hooks raising error 7. -/
theorem hook_failure_aborts_witness :
    (procCreated.current_state = STATE_CREATED ∧ errHooks.ownSetUp = .error 7 ∧
      (setUp errHooks procCreated).proc = procCreated ∧
      (setUp errHooks procCreated).result = .hookFailure 7) ∧
    (procReady.current_state = STATE_READY_TO_START ∧ errHooks.ownStart = .error 7 ∧
      (start errHooks procReady).proc = procReady ∧
      (start errHooks procReady).result = .hookFailure 7) ∧
    (procRunning.current_state = STATE_RUNNING ∧ errHooks.ownStop = .error 7 ∧
      (stop errHooks procRunning).proc = procRunning ∧
      (stop errHooks procRunning).result = .hookFailure 7) :=
  ⟨⟨rfl, rfl, (hook_failure_aborts errHooks procCreated 7).1 rfl rfl⟩,
   ⟨rfl, rfl, (hook_failure_aborts errHooks procReady 7).2.1 (Or.inl rfl) rfl⟩,
   ⟨rfl, rfl, (hook_failure_aborts errHooks procRunning 7).2.2 (Or.inl rfl) rfl⟩⟩

theorem setUp_created_state {ε : Type} (hooks : Hooks ε) (hsu : hooks.ownSetUp = .ok ())
    (p : RobotProcess) (h : p.current_state = STATE_CREATED) :
    (setUp hooks p).proc.current_state = STATE_READY_TO_START := by
  unfold setUp
  rw [if_pos h, hsu]
  exact setState_valid p STATE_READY_TO_START (by decide)

theorem start_ready_running {ε : Type} (hooks : Hooks ε) (hst : hooks.ownStart = .ok ())
    (p : RobotProcess) (h : p.current_state = STATE_READY_TO_START) :
    (start hooks p).proc.current_state = STATE_RUNNING := by
  have hne : ¬ p.current_state = STATE_RUNNING := by rw [h]; decide
  unfold start
  rw [if_neg hne, if_pos (Or.inl h), hst]
  exact setState_valid p STATE_RUNNING (by decide)

theorem stop_running_ready {ε : Type} (hooks : Hooks ε) (hsp : hooks.ownStop = .ok ())
    (p : RobotProcess) (h : p.current_state = STATE_RUNNING) :
    (stop hooks p).proc.current_state = STATE_READY_TO_START := by
  unfold stop
  rw [if_pos (Or.inl h), hsp]
  exact setState_valid p STATE_READY_TO_START (by decide)

theorem cycle_ready {ε : Type} (hooks : Hooks ε) (hst : hooks.ownStart = .ok ())
    (hsp : hooks.ownStop = .ok ()) (p : RobotProcess)
    (h : p.current_state = STATE_READY_TO_START) :
    (cycle hooks p).current_state = STATE_READY_TO_START :=
  stop_running_ready hooks hsp _ (start_ready_running hooks hst p h)

theorem afterCycles_ready {ε : Type} (hooks : Hooks ε) (hst : hooks.ownStart = .ok ())
    (hsp : hooks.ownStop = .ok ()) (p : RobotProcess)
    (h : p.current_state = STATE_READY_TO_START) (n : Nat) :
    (afterCycles hooks p n).current_state = STATE_READY_TO_START := by
  induction n with
  | zero => exact h
  | succ n ih => exact cycle_ready hooks hst hsp _ ih

/-- Claim C1: along the valid call order `Created` → `setup` →
`ReadyToStart` → (`start` → `Running` → `stop` → `ReadyToStart`)* with
succeeding hooks, `getState()` after each call is exactly the successor
state of the table: `Created` after construction, `ReadyToStart` after
`setUp()`, `Running` after `start()`, `ReadyToStart` after `stop()`,
for every number `n` of start/stop cycles. -/
theorem lifecycle_table_holds {ε : Type} (hooks : Hooks ε)
    (hsu : hooks.ownSetUp = .ok ()) (hst : hooks.ownStart = .ok ())
    (hsp : hooks.ownStop = .ok ()) (d h : String) (n : Nat) :
    getState (RobotProcess.init d h) = STATE_CREATED ∧
    getState (setUp hooks (RobotProcess.init d h)).proc = STATE_READY_TO_START ∧
    getState (afterCycles hooks (setUp hooks (RobotProcess.init d h)).proc n) =
      STATE_READY_TO_START ∧
    getState (start hooks
      (afterCycles hooks (setUp hooks (RobotProcess.init d h)).proc n)).proc =
      STATE_RUNNING ∧
    getState (stop hooks (start hooks
      (afterCycles hooks (setUp hooks (RobotProcess.init d h)).proc n)).proc).proc =
      STATE_READY_TO_START := by
  have h2 := afterCycles_ready hooks hst hsp _
    (setUp_created_state hooks hsu (RobotProcess.init d h) rfl) n
  exact ⟨rfl, setUp_created_state hooks hsu (RobotProcess.init d h) rfl, h2,
    start_ready_running hooks hst _ h2,
    stop_running_ready hooks hsp _ (start_ready_running hooks hst _ h2)⟩

/-- Witness for C1 with the all-succeeding hook set, identity
`drone1`/`hostA` and two start/stop cycles. -/
theorem lifecycle_table_holds_witness :
    okHooks.ownSetUp = .ok () ∧ okHooks.ownStart = .ok () ∧ okHooks.ownStop = .ok () ∧
    (getState (RobotProcess.init "drone1" "hostA") = STATE_CREATED ∧
     getState (setUp okHooks (RobotProcess.init "drone1" "hostA")).proc =
       STATE_READY_TO_START ∧
     getState (afterCycles okHooks
       (setUp okHooks (RobotProcess.init "drone1" "hostA")).proc 2) =
       STATE_READY_TO_START ∧
     getState (start okHooks (afterCycles okHooks
       (setUp okHooks (RobotProcess.init "drone1" "hostA")).proc 2)).proc =
       STATE_RUNNING ∧
     getState (stop okHooks (start okHooks (afterCycles okHooks
       (setUp okHooks (RobotProcess.init "drone1" "hostA")).proc 2)).proc).proc =
       STATE_READY_TO_START) :=
  ⟨rfl, rfl, rfl, lifecycle_table_holds okHooks rfl rfl rfl "drone1" "hostA" 2⟩

theorem setState_preserves (p : RobotProcess) (s : State)
    (hp : validState p.current_state) :
    validState (setState p s).current_state := by
  rcases setState_cases p s with h | h
  · rw [h]; exact hp
  · exact h

theorem setUp_preserves {ε : Type} (hooks : Hooks ε) (p : RobotProcess)
    (hp : validState p.current_state) :
    validState (setUp hooks p).proc.current_state := by
  unfold setUp
  split
  · cases hs : hooks.ownSetUp with
    | error e => exact hp
    | ok u => exact setState_preserves p STATE_READY_TO_START hp
  · exact hp

theorem start_preserves {ε : Type} (hooks : Hooks ε) (p : RobotProcess)
    (hp : validState p.current_state) :
    validState (start hooks p).proc.current_state := by
  unfold start
  split
  · exact hp
  · split
    · cases hs : hooks.ownStart with
      | error e => exact hp
      | ok u => exact setState_preserves p STATE_RUNNING hp
    · exact hp

theorem stop_preserves {ε : Type} (hooks : Hooks ε) (p : RobotProcess)
    (hp : validState p.current_state) :
    validState (stop hooks p).proc.current_state := by
  unfold stop
  split
  · cases hs : hooks.ownStop with
    | error e => exact hp
    | ok u => exact setState_preserves p STATE_READY_TO_START hp
  · exact hp

theorem run_preserves {ε : Type} (hooks : Hooks ε) (p : RobotProcess)
    (hp : validState p.current_state) :
    validState (run hooks p).proc.current_state := by
  unfold run
  split
  · cases hs : hooks.ownRun with
    | error e => exact hp
    | ok u => exact hp
  · exact hp

theorem startSrvCall_preserves {ε : Type} (hooks : Hooks ε) (p : RobotProcess)
    (hp : validState p.current_state) :
    validState (startSrvCall hooks p).proc.current_state := by
  unfold startSrvCall
  split
  · dsimp only
    cases hr : (start hooks p).result
    case ok => exact setState_preserves _ STATE_RUNNING (start_preserves hooks p hp)
    all_goals exact start_preserves hooks p hp
  · exact hp

theorem stopSrvCall_preserves {ε : Type} (hooks : Hooks ε) (p : RobotProcess)
    (hp : validState p.current_state) :
    validState (stopSrvCall hooks p).proc.current_state := by
  unfold stopSrvCall
  split
  · dsimp only
    cases hr : (stop hooks p).result
    case ok => exact setState_preserves _ STATE_READY_TO_START (stop_preserves hooks p hp)
    all_goals exact stop_preserves hooks p hp
  · exact hp

theorem reachable_validState {p : RobotProcess} (h : Reachable p) :
    validState p.current_state := by
  induction h with
  | init d hn => exact Or.inl rfl
  | setUpStep hooks hr ih => exact setUp_preserves hooks _ ih
  | startStep hooks hr ih => exact start_preserves hooks _ ih
  | stopStep hooks hr ih => exact stop_preserves hooks _ ih
  | runStep hooks hr ih => exact run_preserves hooks _ ih
  | setStateStep s hr ih => exact setState_preserves _ s ih
  | startSrvStep hooks hr ih => exact startSrvCall_preserves hooks _ ih
  | stopSrvStep hooks hr ih => exact stopSrvCall_preserves hooks _ ih

/-- Claim C4: in every reachable state of a `RobotProcess` —
construction followed by any sequence of public operations, including
`setState` with an arbitrary argument — `current_state` holds one of
exactly the four defined values `STATE_CREATED` (1),
`STATE_READY_TO_START` (2), `STATE_RUNNING` (3), `STATE_PAUSED` (4). -/
theorem current_state_always_defined (p : RobotProcess) (h : Reachable p) :
    p.current_state = STATE_CREATED ∨ p.current_state = STATE_READY_TO_START ∨
    p.current_state = STATE_RUNNING ∨ p.current_state = STATE_PAUSED :=
  reachable_validState h

/-- Witness for C4: a process reached by construction, `setUp`, remote
start, and a `setState` with the invalid tag `STATE_STARTED` (7). -/
theorem current_state_always_defined_witness :
    Reachable (setState (startSrvCall okHooks (setUp okHooks procCreated).proc).proc
      STATE_STARTED) ∧
    ((setState (startSrvCall okHooks (setUp okHooks procCreated).proc).proc
        STATE_STARTED).current_state = STATE_CREATED ∨
     (setState (startSrvCall okHooks (setUp okHooks procCreated).proc).proc
        STATE_STARTED).current_state = STATE_READY_TO_START ∨
     (setState (startSrvCall okHooks (setUp okHooks procCreated).proc).proc
        STATE_STARTED).current_state = STATE_RUNNING ∨
     (setState (startSrvCall okHooks (setUp okHooks procCreated).proc).proc
        STATE_STARTED).current_state = STATE_PAUSED) :=
  have hr : Reachable (setState (startSrvCall okHooks (setUp okHooks procCreated).proc).proc
      STATE_STARTED) :=
    Reachable.setStateStep STATE_STARTED
      (Reachable.startSrvStep okHooks
        (Reachable.setUpStep okHooks (Reachable.init "drone1" "hostA")))
  ⟨hr, current_state_always_defined _ hr⟩

/-- Claim C10: `getState()` returns a `uint8_t`, so every value it can
return on a reachable process lies in `[0, 255]`; the `-1` "undefined"
sentinel documented in the header cannot be returned: stored in a
`uint8_t` it would be observed as `-1 mod 2^8 = 255`, and `getState`
never yields that value. -/
theorem getState_no_negative_sentinel (p : RobotProcess) (h : Reachable p) :
    getState p ≤ 255 ∧ uint8OfInt (-1) = 255 ∧ getState p ≠ uint8OfInt (-1) := by
  have hv := reachable_validState h
  unfold validState at hv
  unfold getState
  refine ⟨?_, by decide, ?_⟩
  · rcases hv with h1 | h1 | h1 | h1 <;> rw [h1] <;> decide
  · rcases hv with h1 | h1 | h1 | h1 <;> rw [h1] <;> decide

/-- Witness for C10 at a freshly constructed process. -/
theorem getState_no_negative_sentinel_witness :
    Reachable procCreated ∧
    (getState procCreated ≤ 255 ∧ uint8OfInt (-1) = 255 ∧
     getState procCreated ≠ uint8OfInt (-1)) :=
  ⟨Reachable.init "drone1" "hostA",
   getState_no_negative_sentinel procCreated (Reachable.init "drone1" "hostA")⟩
